import Mathlib

/-!
Shallow embedding of the VSB shape-rendering layer (src/src/lib.rs).

Modelling decisions, uniform across the development:
* `f32` values are modelled as exact rationals (`ℚ`); the only float
  arithmetic the code performs on its own is division by constants and
  4×4 matrix algebra, which we reproduce exactly.
* The `glow::Context` is modelled as a trace of GL commands
  (`List GLCmd`) plus a fresh-handle allocator (`GLState`); every
  effectful function returns the list of commands it issues, in order.
* The lyon tessellator is an external black box: each constructor takes
  the outcome of `builder.build()` together with the produced geometry
  as an input of type `Except TessellationError VertexBuffers`.
* The cgmath matrix functions (`Matrix4::identity`,
  `Matrix4::from_translation`, matrix multiplication, `ortho`) are
  translated from cgmath's documented definitions.
* A Rust `panic!`/`unwrap` failure is the `panicWith` constructor of
  `PanicOr`; recoverable errors use `Except`.
-/

namespace VSB

/-- A 2-D tessellation vertex (lyon `Point`), coordinates as exact rationals. -/
structure Point where
  x : ℚ
  y : ℚ
deriving DecidableEq

/-- lyon `VertexBuffers<Point, u16>`: the tessellator's output mesh. -/
structure VertexBuffers where
  vertices : List Point
  indices : List Nat
deriving DecidableEq

/-- Abstract stand-in for `lyon::tessellation::TessellationError`. -/
structure TessellationError where
  code : Nat
deriving DecidableEq

/-- The outcome of `builder.build()` together with the geometry filled in
by the tessellator; an input to each shape constructor since lyon is an
external library. -/
abbrev TessResult := Except TessellationError VertexBuffers

/-- `pub enum CornerType { Round, Hard }` -/
inductive CornerType
  | Round
  | Hard
deriving DecidableEq

/-- Outcome of a computation that can abort the process (Rust `panic!`),
carrying the panic payload text. -/
inductive PanicOr (α : Type)
  | panicWith (msg : String)
  | ok (a : α)
deriving DecidableEq

/-! ### cgmath matrix algebra (external dependency, translated from cgmath) -/

/-- A 4×4 matrix over ℚ; `mij` is the entry in row `i`, column `j`
(cgmath stores column-major, but entries are what matters here). -/
structure Mat4 where
  (m00 m01 m02 m03 : ℚ)
  (m10 m11 m12 m13 : ℚ)
  (m20 m21 m22 m23 : ℚ)
  (m30 m31 m32 m33 : ℚ)
deriving DecidableEq

/-- `cgmath::Matrix4::identity()` -/
def Mat4.identity : Mat4 :=
  ⟨1, 0, 0, 0,
   0, 1, 0, 0,
   0, 0, 1, 0,
   0, 0, 0, 1⟩

/-- `cgmath::Matrix4::from_translation(vec3(x, y, z))` -/
def Mat4.fromTranslation (x y z : ℚ) : Mat4 :=
  ⟨1, 0, 0, x,
   0, 1, 0, y,
   0, 0, 1, z,
   0, 0, 0, 1⟩

/-- Matrix product (cgmath `Matrix4 * Matrix4`, column-vector convention). -/
def Mat4.mul (a b : Mat4) : Mat4 :=
  ⟨a.m00*b.m00 + a.m01*b.m10 + a.m02*b.m20 + a.m03*b.m30,
   a.m00*b.m01 + a.m01*b.m11 + a.m02*b.m21 + a.m03*b.m31,
   a.m00*b.m02 + a.m01*b.m12 + a.m02*b.m22 + a.m03*b.m32,
   a.m00*b.m03 + a.m01*b.m13 + a.m02*b.m23 + a.m03*b.m33,
   a.m10*b.m00 + a.m11*b.m10 + a.m12*b.m20 + a.m13*b.m30,
   a.m10*b.m01 + a.m11*b.m11 + a.m12*b.m21 + a.m13*b.m31,
   a.m10*b.m02 + a.m11*b.m12 + a.m12*b.m22 + a.m13*b.m32,
   a.m10*b.m03 + a.m11*b.m13 + a.m12*b.m23 + a.m13*b.m33,
   a.m20*b.m00 + a.m21*b.m10 + a.m22*b.m20 + a.m23*b.m30,
   a.m20*b.m01 + a.m21*b.m11 + a.m22*b.m21 + a.m23*b.m31,
   a.m20*b.m02 + a.m21*b.m12 + a.m22*b.m22 + a.m23*b.m32,
   a.m20*b.m03 + a.m21*b.m13 + a.m22*b.m23 + a.m23*b.m33,
   a.m30*b.m00 + a.m31*b.m10 + a.m32*b.m20 + a.m33*b.m30,
   a.m30*b.m01 + a.m31*b.m11 + a.m32*b.m21 + a.m33*b.m31,
   a.m30*b.m02 + a.m31*b.m12 + a.m32*b.m22 + a.m33*b.m32,
   a.m30*b.m03 + a.m31*b.m13 + a.m32*b.m23 + a.m33*b.m33⟩

/-- Apply a matrix to a homogeneous 4-vector (column-vector convention). -/
def Mat4.applyVec4 (a : Mat4) (v : ℚ × ℚ × ℚ × ℚ) : ℚ × ℚ × ℚ × ℚ :=
  (a.m00*v.1 + a.m01*v.2.1 + a.m02*v.2.2.1 + a.m03*v.2.2.2,
   a.m10*v.1 + a.m11*v.2.1 + a.m12*v.2.2.1 + a.m13*v.2.2.2,
   a.m20*v.1 + a.m21*v.2.1 + a.m22*v.2.2.1 + a.m23*v.2.2.2,
   a.m30*v.1 + a.m31*v.2.1 + a.m32*v.2.2.1 + a.m33*v.2.2.2)

/-- `cgmath::ortho(left, right, bottom, top, near, far)`, translated from
cgmath's definition (entry `c3r0` of the column-major constructor is row 0,
column 3 here, etc.). -/
def ortho (left right bottom top near far : ℚ) : Mat4 :=
  ⟨2 / (right - left), 0, 0, -((right + left) / (right - left)),
   0, 2 / (top - bottom), 0, -((top + bottom) / (top - bottom)),
   0, 0, -2 / (far - near), -((far + near) / (far - near)),
   0, 0, 0, 1⟩

/-! ### Uniform binding types -/

/-- `pub struct TransformUniforms { transform: cgmath::Matrix4<f32> }` -/
structure TransformUniforms where
  transform : Mat4
deriving DecidableEq

/-- `TransformUniforms::new()` — the identity transform. -/
def TransformUniforms.new : TransformUniforms :=
  ⟨Mat4.identity⟩

/-- `TransformUniforms::translate(x, y)`:
`self.transform = self.transform * Matrix4::from_translation(vec3(x, y, 0.))`. -/
def TransformUniforms.translate (t : TransformUniforms) (x y : ℚ) : TransformUniforms :=
  ⟨t.transform.mul (Mat4.fromTranslation x y 0)⟩

/-- `pub struct ColorUniforms { color: [f32; 3] }` -/
structure ColorUniforms where
  color : ℚ × ℚ × ℚ
deriving DecidableEq

/-- `ColorUniforms::new(r, g, b)` -/
def ColorUniforms.new (r g b : ℚ) : ColorUniforms :=
  ⟨(r, g, b)⟩

/-- `ColorUniforms::new_from_8(r, g, b)`: `[r as f32 / 255., …]`; the `u8`
arguments are naturals (callers pass values < 256, stated as hypotheses
where it matters). -/
def ColorUniforms.new_from_8 (r g b : Nat) : ColorUniforms :=
  ⟨((r : ℚ) / 255, (g : ℚ) / 255, (b : ℚ) / 255)⟩

/-- `pub struct ProjectionUniforms { projection: cgmath::Matrix4<f32> }` -/
structure ProjectionUniforms where
  projection : Mat4
deriving DecidableEq

/-- `ProjectionUniforms::new(size)`:
`cgmath::ortho(0., size.0 as f32, size.1 as f32, 0., 0., 1.)` —
note cgmath's argument order is (left, right, bottom, top, near, far). -/
def ProjectionUniforms.new (size : Nat × Nat) : ProjectionUniforms :=
  ⟨ortho 0 (size.1 : ℚ) (size.2 : ℚ) 0 0 1⟩

/-! ### GL command traces -/

/-- Buffer binding target. -/
inductive GLTarget
  | arrayBuffer
  | elementArrayBuffer
deriving DecidableEq

/-- Buffer usage hint. -/
inductive GLUsage
  | staticDraw
  | dynamicDraw
deriving DecidableEq

/-- Payload uploaded with `buffer_data_u8_slice`; the little-endian byte
serialization is abstracted to the typed data it encodes. -/
inductive BufferPayload
  | floats (xs : List ℚ)
  | u16s (ns : List Nat)
deriving DecidableEq

/-- A value pushed into a uniform slot. -/
inductive UniformValue
  | mat4 (m : Mat4)
  | vec3 (c : ℚ × ℚ × ℚ)
  | vec2 (x y : ℚ)
  | float (x : ℚ)
deriving DecidableEq

/-- Shader stage kind. -/
inductive ShaderType
  | vertex
  | fragment
deriving DecidableEq

/-- One call into the `glow::Context`, in the order the code issues them. -/
inductive GLCmd
  | useProgram (p : Nat)
  | createVertexArray (id : Nat)
  | bindVertexArray (id : Nat)
  | createBuffer (id : Nat)
  | bindBuffer (t : GLTarget) (id : Nat)
  | enableVertexAttribArray (idx : Nat)
  | vertexAttribPointer (idx size : Nat)
  | bufferData (t : GLTarget) (data : BufferPayload) (usage : GLUsage)
  | setUniform (name : String) (v : UniformValue)
  | drawElementsTriangles (count : Nat)
  | deleteVertexArray (id : Nat)
  | deleteBuffer (id : Nat)
  | clearColor (r g b a : ℚ)
  | createProgram (id : Nat)
  | createShader (t : ShaderType) (id : Nat)
  | shaderSource (id : Nat) (src : String)
  | compileShaderCall (id : Nat)
  | attachShader (p s : Nat)
  | linkProgram (p : Nat)
  | detachShader (p s : Nat)
  | deleteShader (id : Nat)
deriving DecidableEq

/-- Fresh-handle allocator standing in for the GL context's object tables. -/
structure GLState where
  nextId : Nat
deriving DecidableEq

/-- Allocate a fresh GL object handle. -/
def GLState.fresh (s : GLState) : Nat × GLState :=
  (s.nextId, ⟨s.nextId + 1⟩)

/-- The `dyn Uniforms` trait objects a draw call assembles. -/
inductive Uniform
  | transformU (t : TransformUniforms)
  | colorU (c : ColorUniforms)
  | projectionU (p : ProjectionUniforms)
  | genericVec2 (name : String) (x y : ℚ)
  | genericFloat (name : String) (v : ℚ)
deriving DecidableEq

/-- `Uniforms::set_uniforms`: each impl looks up its (fixed or stored)
uniform name and pushes its typed value. -/
def Uniform.set_uniforms : Uniform → List GLCmd
  | .transformU t => [.setUniform "transform" (.mat4 t.transform)]
  | .colorU c => [.setUniform "ucolor" (.vec3 c.color)]
  | .projectionU p => [.setUniform "projection" (.mat4 p.projection)]
  | .genericVec2 n x y => [.setUniform n (.vec2 x y)]
  | .genericFloat n v => [.setUniform n (.float v)]

/-- The interleaved vertex position data uploaded to the array buffer:
`for vertex in geometry.vertices { vertices.push(vertex.x); vertices.push(vertex.y) }`. -/
def vertexData (g : VertexBuffers) : List ℚ :=
  g.vertices.flatMap (fun v => [v.x, v.y])

/-! ### Circle -/

/-- `pub struct Circle`; the shared `Arc<Context>` is the `gl` context id. -/
structure Circle where
  vertex_array : Nat
  vertex_buffer : Nat
  index_buffer : Nat
  indices : Nat
  radius : ℚ
  gl : Nat
deriving DecidableEq

/-- `Circle::new(gl, radius)`. The tessellation of the circle outline is
the black-box input `tess`; on tessellation failure the `?` operator
propagates the error. Returns the constructed value, the updated handle
allocator and the trace of GL calls issued. -/
def Circle.new (gl : Nat) (st : GLState) (tess : TessResult) (radius : ℚ) :
    Except TessellationError (Circle × GLState × List GLCmd) :=
  match tess with
  | .error e => .error e
  | .ok geometry =>
    let (vertex_array, st) := st.fresh
    let (vertex_buffer, st) := st.fresh
    let (index_buffer, st) := st.fresh
    .ok (⟨vertex_array, vertex_buffer, index_buffer,
          geometry.indices.length, radius, gl⟩, st,
      [.createVertexArray vertex_array, .bindVertexArray vertex_array,
       .createBuffer vertex_buffer, .bindBuffer .arrayBuffer vertex_buffer,
       .createBuffer index_buffer, .bindBuffer .elementArrayBuffer index_buffer,
       .enableVertexAttribArray 0, .vertexAttribPointer 0 2,
       .bufferData .arrayBuffer (.floats (vertexData geometry)) .dynamicDraw,
       .bufferData .elementArrayBuffer (.u16s geometry.indices) .dynamicDraw])

/-- `<Circle as GLObject>::render(program, uniforms)`. -/
def Circle.render (c : Circle) (program : Nat) (uniforms : List Uniform) : List GLCmd :=
  [.useProgram program,
   .bindVertexArray c.vertex_array,
   .bindBuffer .arrayBuffer c.vertex_buffer,
   .bindBuffer .elementArrayBuffer c.index_buffer]
  ++ uniforms.flatMap Uniform.set_uniforms
  ++ [.drawElementsTriangles c.indices]

/-- `Circle::draw_with(program, position, color, resolution)`. -/
def Circle.draw_with (c : Circle) (program : Nat) (px py : ℚ)
    (color : ColorUniforms) (resolution : Nat × Nat) : List GLCmd :=
  let uniforms : List Uniform :=
    [.projectionU (ProjectionUniforms.new resolution),
     .transformU ((TransformUniforms.new).translate px py),
     .colorU color]
  c.render program uniforms

/-- `<Circle as Drop>::drop`. -/
def Circle.drop (c : Circle) : List GLCmd :=
  [.deleteVertexArray c.vertex_array,
   .deleteBuffer c.vertex_buffer,
   .deleteBuffer c.index_buffer]

/-! ### Rectangle -/

/-- `pub struct Rectangle`. -/
structure Rectangle where
  vertex_array : Nat
  vertex_buffer : Nat
  index_buffer : Nat
  indices : Nat
  width : ℚ
  height : ℚ
  gl : Nat
deriving DecidableEq

/-- `Rectangle::new(gl, width, height, kind)`. The (rounded-)rectangle
tessellation is the black-box input `tess`; `builder.build().unwrap()`
panics on tessellation failure instead of returning a `Result`. -/
def Rectangle.new (gl : Nat) (st : GLState) (tess : TessResult)
    (width height : ℚ) (kind : CornerType) :
    PanicOr (Rectangle × GLState × List GLCmd) :=
  match kind, tess with
  | _, .error _ => .panicWith "called Result::unwrap() on an Err value"
  | _, .ok geometry =>
    let (vertex_array, st) := st.fresh
    let (vertex_buffer, st) := st.fresh
    let (index_buffer, st) := st.fresh
    .ok (⟨vertex_array, vertex_buffer, index_buffer,
          geometry.indices.length, width, height, gl⟩, st,
      [.createVertexArray vertex_array, .bindVertexArray vertex_array,
       .createBuffer vertex_buffer, .bindBuffer .arrayBuffer vertex_buffer,
       .createBuffer index_buffer, .bindBuffer .elementArrayBuffer index_buffer,
       .enableVertexAttribArray 0, .vertexAttribPointer 0 2,
       .bufferData .arrayBuffer (.floats (vertexData geometry)) .staticDraw,
       .bufferData .elementArrayBuffer (.u16s geometry.indices) .staticDraw])

/-- `Rectangle::update(width, height, kind)`: re-tessellates (black-box
input `tess`, `unwrap` panics on failure), re-binds the existing vertex
array and buffers, re-uploads, and sets `self.width`/`self.height`.
(The source does not update `self.indices`.) -/
def Rectangle.update (r : Rectangle) (tess : TessResult)
    (width height : ℚ) (kind : CornerType) :
    PanicOr (Rectangle × List GLCmd) :=
  match kind, tess with
  | _, .error _ => .panicWith "called Result::unwrap() on an Err value"
  | _, .ok geometry =>
    .ok ({ r with width := width, height := height },
      [.bindVertexArray r.vertex_array,
       .bindBuffer .arrayBuffer r.vertex_buffer,
       .bindBuffer .elementArrayBuffer r.index_buffer,
       .enableVertexAttribArray 0, .vertexAttribPointer 0 2,
       .bufferData .arrayBuffer (.floats (vertexData geometry)) .staticDraw,
       .bufferData .elementArrayBuffer (.u16s geometry.indices) .staticDraw])

/-- `<Rectangle as GLObject>::render(program, uniforms)`. -/
def Rectangle.render (r : Rectangle) (program : Nat) (uniforms : List Uniform) : List GLCmd :=
  [.useProgram program,
   .bindVertexArray r.vertex_array,
   .bindBuffer .arrayBuffer r.vertex_buffer,
   .bindBuffer .elementArrayBuffer r.index_buffer]
  ++ uniforms.flatMap Uniform.set_uniforms
  ++ [.drawElementsTriangles r.indices]

/-- `Rectangle::draw_with(program, position, color, resolution)`. -/
def Rectangle.draw_with (r : Rectangle) (program : Nat) (px py : ℚ)
    (color : ColorUniforms) (resolution : Nat × Nat) : List GLCmd :=
  let uniforms : List Uniform :=
    [.projectionU (ProjectionUniforms.new resolution),
     .transformU ((TransformUniforms.new).translate px py),
     .colorU color]
  r.render program uniforms

/-- `<Rectangle as Drop>::drop`. -/
def Rectangle.drop (r : Rectangle) : List GLCmd :=
  [.deleteVertexArray r.vertex_array,
   .deleteBuffer r.vertex_buffer,
   .deleteBuffer r.index_buffer]

/-! ### RadialGradient -/

/-- `pub struct RadialGradient`. -/
structure RadialGradient where
  vertex_array : Nat
  vertex_buffer : Nat
  index_buffer : Nat
  indices : Nat
  radius : ℚ
  gl : Nat
deriving DecidableEq

/-- `RadialGradient::new(gl, radius)`: identical construction to
`Circle::new` (circle outline, `?` on tessellation failure). -/
def RadialGradient.new (gl : Nat) (st : GLState) (tess : TessResult) (radius : ℚ) :
    Except TessellationError (RadialGradient × GLState × List GLCmd) :=
  match tess with
  | .error e => .error e
  | .ok geometry =>
    let (vertex_array, st) := st.fresh
    let (vertex_buffer, st) := st.fresh
    let (index_buffer, st) := st.fresh
    .ok (⟨vertex_array, vertex_buffer, index_buffer,
          geometry.indices.length, radius, gl⟩, st,
      [.createVertexArray vertex_array, .bindVertexArray vertex_array,
       .createBuffer vertex_buffer, .bindBuffer .arrayBuffer vertex_buffer,
       .createBuffer index_buffer, .bindBuffer .elementArrayBuffer index_buffer,
       .enableVertexAttribArray 0, .vertexAttribPointer 0 2,
       .bufferData .arrayBuffer (.floats (vertexData geometry)) .dynamicDraw,
       .bufferData .elementArrayBuffer (.u16s geometry.indices) .dynamicDraw])

/-- `<RadialGradient as GLObject>::render(program, uniforms)`. -/
def RadialGradient.render (g : RadialGradient) (program : Nat) (uniforms : List Uniform) : List GLCmd :=
  [.useProgram program,
   .bindVertexArray g.vertex_array,
   .bindBuffer .arrayBuffer g.vertex_buffer,
   .bindBuffer .elementArrayBuffer g.index_buffer]
  ++ uniforms.flatMap Uniform.set_uniforms
  ++ [.drawElementsTriangles g.indices]

/-- `RadialGradient::draw_with(program, position, color, resolution)`:
like the other shapes plus generic `"center"` (= position) and
`"range"` (= stored radius) uniforms, in that order. -/
def RadialGradient.draw_with (g : RadialGradient) (program : Nat) (px py : ℚ)
    (color : ColorUniforms) (resolution : Nat × Nat) : List GLCmd :=
  let uniforms : List Uniform :=
    [.projectionU (ProjectionUniforms.new resolution),
     .transformU ((TransformUniforms.new).translate px py),
     .colorU color,
     .genericVec2 "center" px py,
     .genericFloat "range" g.radius]
  g.render program uniforms

/-- `<RadialGradient as Drop>::drop`. -/
def RadialGradient.drop (g : RadialGradient) : List GLCmd :=
  [.deleteVertexArray g.vertex_array,
   .deleteBuffer g.vertex_buffer,
   .deleteBuffer g.index_buffer]

/-! ### Free functions -/

/-- `set_clear_color(gl, color)`:
`gl.clear_color(color.color[0], color.color[1], color.color[2], 0.)`. -/
def set_clear_color (color : ColorUniforms) : List GLCmd :=
  [.clearColor color.color.1 color.color.2.1 color.color.2.2 0]

/-- The driver behavior `compile_shader` depends on: per-stage compile
status, link status, and the corresponding info logs (the GL driver is
an external black box). -/
structure Driver where
  vertexCompileOk : Bool
  fragmentCompileOk : Bool
  linkOk : Bool
  vertexLog : String
  fragmentLog : String
  programLog : String
deriving DecidableEq

/-- `compile_shader(gl, vertex_shader_source, fragment_shader_source)`:
creates a program, then for each stage (vertex first) creates a shader,
sets its source to `"#version 330\n"` followed by the given source,
compiles, panics with the shader info log on compile failure, attaches;
then links, panics with the program info log on link failure; on success
detaches and deletes both stage shaders and returns the program handle.
Returns the trace issued up to the outcome. -/
def compile_shader (d : Driver) (st : GLState)
    (vertex_shader_source fragment_shader_source : String) :
    List GLCmd × PanicOr Nat :=
  let (program, st) := st.fresh
  let (vs, st) := st.fresh
  let tr : List GLCmd :=
    [.createProgram program, .createShader .vertex vs,
     .shaderSource vs ("#version 330" ++ "\n" ++ vertex_shader_source),
     .compileShaderCall vs]
  if d.vertexCompileOk = false then
    (tr, .panicWith d.vertexLog)
  else
    let (fs, _) := st.fresh
    let tr := tr ++
      [.attachShader program vs,
       .createShader .fragment fs,
       .shaderSource fs ("#version 330" ++ "\n" ++ fragment_shader_source),
       .compileShaderCall fs]
    if d.fragmentCompileOk = false then
      (tr, .panicWith d.fragmentLog)
    else
      let tr := tr ++ [.attachShader program fs, .linkProgram program]
      if d.linkOk = false then
        (tr, .panicWith d.programLog)
      else
        (tr ++ [.detachShader program vs, .deleteShader vs,
                .detachShader program fs, .deleteShader fs],
         .ok program)

/-! ### Trace classification helpers -/

/-- Commands that issue an indexed draw. -/
def GLCmd.isDraw : GLCmd → Bool
  | .drawElementsTriangles _ => true
  | _ => false

/-- Commands that create a GL object (vertex array, buffer, program or shader). -/
def GLCmd.isCreate : GLCmd → Bool
  | .createVertexArray _ => true
  | .createBuffer _ => true
  | .createProgram _ => true
  | .createShader _ _ => true
  | _ => false

/-- Commands that delete a GL object. -/
def GLCmd.isDelete : GLCmd → Bool
  | .deleteVertexArray _ => true
  | .deleteBuffer _ => true
  | .deleteShader _ => true
  | _ => false

/-- Commands that create or delete a GL object. -/
def GLCmd.isAllocOrFree (c : GLCmd) : Bool :=
  c.isCreate || c.isDelete

/-- Per-stage shader cleanup commands (detach or delete a stage shader). -/
def GLCmd.isShaderCleanup : GLCmd → Bool
  | .detachShader _ _ => true
  | .deleteShader _ => true
  | _ => false

/-- The sequence of uniform names a trace binds, in order. -/
def uniformNames (tr : List GLCmd) : List String :=
  tr.filterMap fun c =>
    match c with
    | .setUniform n _ => some n
    | _ => none

/-! ## Theorems -/

/-- Helper: multiplying the identity matrix on the left is the identity map. -/
theorem Mat4.identity_mul (m : Mat4) : Mat4.identity.mul m = m := by
  cases m
  simp [Mat4.mul, Mat4.identity]

/-- Helper: uniform application never issues a draw command. -/
theorem set_uniforms_filter_isDraw (us : List Uniform) :
    (us.flatMap Uniform.set_uniforms).filter GLCmd.isDraw = [] := by
  induction us with
  | nil => rfl
  | cons u us ih =>
    cases u <;>
      simp [Uniform.set_uniforms, GLCmd.isDraw, List.filter_append, ih]

/-- C1: tessellation failure is propagated as a `Result` error by
`Circle::new` and `RadialGradient::new` (and success yields a value),
while `Rectangle::new` and `Rectangle::update` panic on tessellation
failure for either corner kind. -/
theorem tessellation_failure_handling (gl : Nat) (st : GLState)
    (e : TessellationError) (radius w h : ℚ) (kind : CornerType)
    (r : Rectangle) (g : VertexBuffers) :
    Circle.new gl st (.error e) radius = .error e ∧
    RadialGradient.new gl st (.error e) radius = .error e ∧
    Rectangle.new gl st (.error e) w h kind =
      .panicWith "called Result::unwrap() on an Err value" ∧
    Rectangle.update r (.error e) w h kind =
      .panicWith "called Result::unwrap() on an Err value" ∧
    (∃ c rest, Circle.new gl st (.ok g) radius = .ok (c, rest)) ∧
    (∃ rg rest, RadialGradient.new gl st (.ok g) radius = .ok (rg, rest)) := by
  refine ⟨rfl, rfl, ?_, ?_, ⟨_, _, rfl⟩, ⟨_, _, rfl⟩⟩ <;> cases kind <;> rfl

/-- C2: `new_from_8` stores `(r/255, g/255, b/255)`; `(255,255,255)`
gives `(1,1,1)`, `(0,0,0)` gives `(0,0,0)`, and for every `u8` input
each stored component lies in `[0,1]`. -/
theorem new_from_8_normalizes :
    ColorUniforms.new_from_8 255 255 255 = ⟨(1, 1, 1)⟩ ∧
    ColorUniforms.new_from_8 0 0 0 = ⟨(0, 0, 0)⟩ ∧
    ∀ r g b : Nat, r ≤ 255 → g ≤ 255 → b ≤ 255 →
      (ColorUniforms.new_from_8 r g b).color =
        ((r : ℚ) / 255, (g : ℚ) / 255, (b : ℚ) / 255) ∧
      (0 ≤ (ColorUniforms.new_from_8 r g b).color.1 ∧
        (ColorUniforms.new_from_8 r g b).color.1 ≤ 1) ∧
      (0 ≤ (ColorUniforms.new_from_8 r g b).color.2.1 ∧
        (ColorUniforms.new_from_8 r g b).color.2.1 ≤ 1) ∧
      (0 ≤ (ColorUniforms.new_from_8 r g b).color.2.2 ∧
        (ColorUniforms.new_from_8 r g b).color.2.2 ≤ 1) := by
  refine ⟨?_, ?_, ?_⟩
  · simp only [ColorUniforms.new_from_8, ColorUniforms.mk.injEq, Prod.mk.injEq]
    norm_num
  · simp only [ColorUniforms.new_from_8, ColorUniforms.mk.injEq, Prod.mk.injEq]
    norm_num
  intro r g b hr hg hb
  have bound : ∀ n : Nat, n ≤ 255 → 0 ≤ (n : ℚ) / 255 ∧ (n : ℚ) / 255 ≤ 1 := by
    intro n hn
    constructor
    · positivity
    · rw [div_le_one (by norm_num)]
      exact_mod_cast hn
  exact ⟨rfl, bound r hr, bound g hg, bound b hb⟩

/-- C2 witness: a concrete `u8` input. -/
theorem new_from_8_normalizes_witness :
    (ColorUniforms.new_from_8 128 64 32).color =
      ((128 : ℚ) / 255, (64 : ℚ) / 255, (32 : ℚ) / 255) ∧
    (0 ≤ (ColorUniforms.new_from_8 128 64 32).color.1 ∧
      (ColorUniforms.new_from_8 128 64 32).color.1 ≤ 1) ∧
    (0 ≤ (ColorUniforms.new_from_8 128 64 32).color.2.1 ∧
      (ColorUniforms.new_from_8 128 64 32).color.2.1 ≤ 1) ∧
    (0 ≤ (ColorUniforms.new_from_8 128 64 32).color.2.2 ∧
      (ColorUniforms.new_from_8 128 64 32).color.2.2 ≤ 1) :=
  new_from_8_normalizes.2.2 128 64 32 (by decide) (by decide) (by decide)

/-- C3: for every rectangle and new dimensions/corner kind (with the
re-tessellation succeeding), `update` sets `width`/`height`, re-binds the
existing vertex array and buffers and re-uploads into them, leaves the
three handle fields and the context field unchanged, and neither creates
nor deletes any GPU object. -/
theorem rectangle_update_spec (r : Rectangle) (g : VertexBuffers)
    (w h : ℚ) (kind : CornerType) :
    ∃ r' tr, Rectangle.update r (.ok g) w h kind = .ok (r', tr) ∧
      r'.width = w ∧ r'.height = h ∧
      r'.vertex_array = r.vertex_array ∧
      r'.vertex_buffer = r.vertex_buffer ∧
      r'.index_buffer = r.index_buffer ∧
      r'.gl = r.gl ∧
      tr = [.bindVertexArray r.vertex_array,
            .bindBuffer .arrayBuffer r.vertex_buffer,
            .bindBuffer .elementArrayBuffer r.index_buffer,
            .enableVertexAttribArray 0, .vertexAttribPointer 0 2,
            .bufferData .arrayBuffer (.floats (vertexData g)) .staticDraw,
            .bufferData .elementArrayBuffer (.u16s g.indices) .staticDraw] ∧
      tr.all (fun c => ! c.isAllocOrFree) = true := by
  cases kind <;>
    exact ⟨_, _, rfl, rfl, rfl, rfl, rfl, rfl, rfl, rfl, rfl⟩

/-- C9: in every single `draw_with` call the bound uniform names are
pairwise distinct: Circle and Rectangle emit exactly
`projection, transform, ucolor`; RadialGradient emits exactly
`projection, transform, ucolor, center, range`. -/
theorem draw_uniform_names_distinct (c : Circle) (r : Rectangle)
    (rg : RadialGradient) (prog : Nat) (px py : ℚ)
    (col col2 col3 : ColorUniforms) (res : Nat × Nat) :
    uniformNames (c.draw_with prog px py col res) =
      ["projection", "transform", "ucolor"] ∧
    uniformNames (r.draw_with prog px py col2 res) =
      ["projection", "transform", "ucolor"] ∧
    uniformNames (rg.draw_with prog px py col3 res) =
      ["projection", "transform", "ucolor", "center", "range"] ∧
    (["projection", "transform", "ucolor"] : List String).Nodup ∧
    (["projection", "transform", "ucolor", "center", "range"] : List String).Nodup := by
  refine ⟨rfl, rfl, rfl, by decide, by decide⟩

/-- C4: every `draw_with` call assembles exactly a projection uniform
from the resolution, a transform uniform that is the identity composed
only with a translation by the position (no rotation), and the given
color uniform, then issues a single render call; `RadialGradient`
additionally appends `"center"` (= position) and `"range"` (= stored
radius), in that order. -/
theorem draw_with_assembles_uniforms (c : Circle) (r : Rectangle)
    (rg : RadialGradient) (prog : Nat) (px py : ℚ)
    (col col2 col3 : ColorUniforms) (res : Nat × Nat) :
    c.draw_with prog px py col res =
      [.useProgram prog, .bindVertexArray c.vertex_array,
       .bindBuffer .arrayBuffer c.vertex_buffer,
       .bindBuffer .elementArrayBuffer c.index_buffer,
       .setUniform "projection"
         (.mat4 (ortho 0 (res.1 : ℚ) (res.2 : ℚ) 0 0 1)),
       .setUniform "transform" (.mat4 (Mat4.fromTranslation px py 0)),
       .setUniform "ucolor" (.vec3 col.color),
       .drawElementsTriangles c.indices] ∧
    r.draw_with prog px py col2 res =
      [.useProgram prog, .bindVertexArray r.vertex_array,
       .bindBuffer .arrayBuffer r.vertex_buffer,
       .bindBuffer .elementArrayBuffer r.index_buffer,
       .setUniform "projection"
         (.mat4 (ortho 0 (res.1 : ℚ) (res.2 : ℚ) 0 0 1)),
       .setUniform "transform" (.mat4 (Mat4.fromTranslation px py 0)),
       .setUniform "ucolor" (.vec3 col2.color),
       .drawElementsTriangles r.indices] ∧
    rg.draw_with prog px py col3 res =
      [.useProgram prog, .bindVertexArray rg.vertex_array,
       .bindBuffer .arrayBuffer rg.vertex_buffer,
       .bindBuffer .elementArrayBuffer rg.index_buffer,
       .setUniform "projection"
         (.mat4 (ortho 0 (res.1 : ℚ) (res.2 : ℚ) 0 0 1)),
       .setUniform "transform" (.mat4 (Mat4.fromTranslation px py 0)),
       .setUniform "ucolor" (.vec3 col3.color),
       .setUniform "center" (.vec2 px py),
       .setUniform "range" (.float rg.radius),
       .drawElementsTriangles rg.indices] := by
  refine ⟨?_, ?_, ?_⟩ <;>
    simp [Circle.draw_with, Rectangle.draw_with, RadialGradient.draw_with,
      Circle.render, Rectangle.render, RadialGradient.render,
      Uniform.set_uniforms, ProjectionUniforms.new, TransformUniforms.new,
      TransformUniforms.translate, Mat4.identity_mul]

/-- C5: `ProjectionUniforms::new((w,h))` is `ortho` with left 0, right
`w`, bottom `h`, top 0, near 0, far 1, and (for positive `w`, `h`) it
maps `(0,0)` to the top-left corner `(-1, 1)` of clip space and `(w,h)`
to the bottom-right corner `(1, -1)` (Y flipped). -/
theorem projection_maps_corners (w h : Nat) (hw : 0 < w) (hh : 0 < h) :
    (ProjectionUniforms.new (w, h)).projection =
      ortho 0 (w : ℚ) (h : ℚ) 0 0 1 ∧
    (ProjectionUniforms.new (w, h)).projection.applyVec4 (0, 0, 0, 1) =
      (-1, 1, -1, 1) ∧
    (ProjectionUniforms.new (w, h)).projection.applyVec4
        ((w : ℚ), (h : ℚ), 0, 1) = (1, -1, -1, 1) := by
  have hw' : (w : ℚ) ≠ 0 := Nat.cast_ne_zero.mpr hw.ne'
  have hh' : (h : ℚ) ≠ 0 := Nat.cast_ne_zero.mpr hh.ne'
  refine ⟨rfl, ?_, ?_⟩
  · simp only [ProjectionUniforms.new, ortho, Mat4.applyVec4, Prod.mk.injEq,
      sub_zero, add_zero, zero_add, zero_mul, mul_zero, mul_one, zero_sub,
      div_neg, neg_neg, neg_mul, div_one]
    rw [div_self hw', div_self hh']
    norm_num
  · simp only [ProjectionUniforms.new, ortho, Mat4.applyVec4, Prod.mk.injEq,
      sub_zero, add_zero, zero_add, zero_mul, mul_zero, mul_one, zero_sub,
      div_neg, neg_neg, neg_mul, div_one]
    rw [div_mul_cancel₀ _ hw', div_self hw', div_mul_cancel₀ _ hh', div_self hh']
    norm_num

/-- C5 witness: a concrete resolution. -/
theorem projection_maps_corners_witness :
    (0 < 4 ∧ 0 < 3) ∧
    ((ProjectionUniforms.new (4, 3)).projection.applyVec4 (0, 0, 0, 1) =
        (-1, 1, -1, 1) ∧
      (ProjectionUniforms.new (4, 3)).projection.applyVec4
          ((4 : ℚ), (3 : ℚ), 0, 1) = (1, -1, -1, 1)) :=
  ⟨⟨by decide, by decide⟩,
    (projection_maps_corners 4 3 (by decide) (by decide)).2⟩

/-- C6: `render` binds the program, the vertex array, then both buffers,
applies the supplied uniforms in list order, and issues exactly one
indexed triangle draw whose count is the stored index count — for each
of the three shapes. -/
theorem render_dispatch_spec (c : Circle) (r : Rectangle)
    (rg : RadialGradient) (prog : Nat) (us us2 us3 : List Uniform) :
    c.render prog us =
      [.useProgram prog, .bindVertexArray c.vertex_array,
       .bindBuffer .arrayBuffer c.vertex_buffer,
       .bindBuffer .elementArrayBuffer c.index_buffer]
      ++ us.flatMap Uniform.set_uniforms
      ++ [.drawElementsTriangles c.indices] ∧
    (c.render prog us).filter GLCmd.isDraw =
      [.drawElementsTriangles c.indices] ∧
    r.render prog us2 =
      [.useProgram prog, .bindVertexArray r.vertex_array,
       .bindBuffer .arrayBuffer r.vertex_buffer,
       .bindBuffer .elementArrayBuffer r.index_buffer]
      ++ us2.flatMap Uniform.set_uniforms
      ++ [.drawElementsTriangles r.indices] ∧
    (r.render prog us2).filter GLCmd.isDraw =
      [.drawElementsTriangles r.indices] ∧
    rg.render prog us3 =
      [.useProgram prog, .bindVertexArray rg.vertex_array,
       .bindBuffer .arrayBuffer rg.vertex_buffer,
       .bindBuffer .elementArrayBuffer rg.index_buffer]
      ++ us3.flatMap Uniform.set_uniforms
      ++ [.drawElementsTriangles rg.indices] ∧
    (rg.render prog us3).filter GLCmd.isDraw =
      [.drawElementsTriangles rg.indices] := by
  refine ⟨rfl, ?_, rfl, ?_, rfl, ?_⟩ <;>
    simp [Circle.render, Rectangle.render, RadialGradient.render,
      List.filter_append, set_uniforms_filter_isDraw, GLCmd.isDraw]

/-- C7: `compile_shader` prepends `"#version 330\n"` to each stage
source, compiles both stages, attaches them, links and returns the
program handle; any compile or link failure panics with the driver's
info log; the per-stage shaders are detached and deleted only after a
successful link, and no such cleanup occurs on failure. -/
theorem compile_shader_spec (st : GLState) (v f lv lf lp : String) (b1 b2 : Bool) :
    compile_shader ⟨true, true, true, lv, lf, lp⟩ st v f =
      ([.createProgram st.nextId, .createShader .vertex (st.nextId + 1),
        .shaderSource (st.nextId + 1) ("#version 330" ++ "\n" ++ v),
        .compileShaderCall (st.nextId + 1),
        .attachShader st.nextId (st.nextId + 1),
        .createShader .fragment (st.nextId + 2),
        .shaderSource (st.nextId + 2) ("#version 330" ++ "\n" ++ f),
        .compileShaderCall (st.nextId + 2),
        .attachShader st.nextId (st.nextId + 2),
        .linkProgram st.nextId,
        .detachShader st.nextId (st.nextId + 1), .deleteShader (st.nextId + 1),
        .detachShader st.nextId (st.nextId + 2), .deleteShader (st.nextId + 2)],
       .ok st.nextId) ∧
    compile_shader ⟨false, b1, b2, lv, lf, lp⟩ st v f =
      ([.createProgram st.nextId, .createShader .vertex (st.nextId + 1),
        .shaderSource (st.nextId + 1) ("#version 330" ++ "\n" ++ v),
        .compileShaderCall (st.nextId + 1)],
       .panicWith lv) ∧
    compile_shader ⟨true, false, b2, lv, lf, lp⟩ st v f =
      ([.createProgram st.nextId, .createShader .vertex (st.nextId + 1),
        .shaderSource (st.nextId + 1) ("#version 330" ++ "\n" ++ v),
        .compileShaderCall (st.nextId + 1),
        .attachShader st.nextId (st.nextId + 1),
        .createShader .fragment (st.nextId + 2),
        .shaderSource (st.nextId + 2) ("#version 330" ++ "\n" ++ f),
        .compileShaderCall (st.nextId + 2)],
       .panicWith lf) ∧
    compile_shader ⟨true, true, false, lv, lf, lp⟩ st v f =
      ([.createProgram st.nextId, .createShader .vertex (st.nextId + 1),
        .shaderSource (st.nextId + 1) ("#version 330" ++ "\n" ++ v),
        .compileShaderCall (st.nextId + 1),
        .attachShader st.nextId (st.nextId + 1),
        .createShader .fragment (st.nextId + 2),
        .shaderSource (st.nextId + 2) ("#version 330" ++ "\n" ++ f),
        .compileShaderCall (st.nextId + 2),
        .attachShader st.nextId (st.nextId + 2),
        .linkProgram st.nextId],
       .panicWith lp) ∧
    (compile_shader ⟨false, b1, b2, lv, lf, lp⟩ st v f).1.all
      (fun c => ! c.isShaderCleanup) = true ∧
    (compile_shader ⟨true, false, b2, lv, lf, lp⟩ st v f).1.all
      (fun c => ! c.isShaderCleanup) = true ∧
    (compile_shader ⟨true, true, false, lv, lf, lp⟩ st v f).1.all
      (fun c => ! c.isShaderCleanup) = true := by
  exact ⟨rfl, rfl, rfl, rfl, rfl, rfl, rfl⟩

/-- C8: for each shape, construction creates exactly one vertex array
and two buffers (three pairwise-distinct handles, no deletions), and
`drop` releases exactly those three handles, once each. -/
theorem shape_destruction_releases_each_handle_once (gl : Nat) (st : GLState)
    (g : VertexBuffers) (radius radius2 w h : ℚ) (kind : CornerType) :
    (∃ c rest tr, Circle.new gl st (.ok g) radius = .ok (c, rest, tr) ∧
      c.drop = [.deleteVertexArray c.vertex_array,
                .deleteBuffer c.vertex_buffer, .deleteBuffer c.index_buffer] ∧
      tr.filter GLCmd.isCreate =
        [.createVertexArray c.vertex_array, .createBuffer c.vertex_buffer,
         .createBuffer c.index_buffer] ∧
      tr.filter GLCmd.isDelete = [] ∧
      c.vertex_array ≠ c.vertex_buffer ∧ c.vertex_array ≠ c.index_buffer ∧
      c.vertex_buffer ≠ c.index_buffer) ∧
    (∃ r rest tr, Rectangle.new gl st (.ok g) w h kind = .ok (r, rest, tr) ∧
      r.drop = [.deleteVertexArray r.vertex_array,
                .deleteBuffer r.vertex_buffer, .deleteBuffer r.index_buffer] ∧
      tr.filter GLCmd.isCreate =
        [.createVertexArray r.vertex_array, .createBuffer r.vertex_buffer,
         .createBuffer r.index_buffer] ∧
      tr.filter GLCmd.isDelete = [] ∧
      r.vertex_array ≠ r.vertex_buffer ∧ r.vertex_array ≠ r.index_buffer ∧
      r.vertex_buffer ≠ r.index_buffer) ∧
    (∃ rg rest tr, RadialGradient.new gl st (.ok g) radius2 = .ok (rg, rest, tr) ∧
      rg.drop = [.deleteVertexArray rg.vertex_array,
                 .deleteBuffer rg.vertex_buffer, .deleteBuffer rg.index_buffer] ∧
      tr.filter GLCmd.isCreate =
        [.createVertexArray rg.vertex_array, .createBuffer rg.vertex_buffer,
         .createBuffer rg.index_buffer] ∧
      tr.filter GLCmd.isDelete = [] ∧
      rg.vertex_array ≠ rg.vertex_buffer ∧ rg.vertex_array ≠ rg.index_buffer ∧
      rg.vertex_buffer ≠ rg.index_buffer) := by
  refine ⟨⟨_, _, _, rfl, rfl, rfl, rfl, ?_, ?_, ?_⟩,
          ?_, ⟨_, _, _, rfl, rfl, rfl, rfl, ?_, ?_, ?_⟩⟩
  · show st.nextId ≠ st.nextId + 1
    omega
  · show st.nextId ≠ st.nextId + 1 + 1
    omega
  · show st.nextId + 1 ≠ st.nextId + 1 + 1
    omega
  · cases kind <;>
      exact ⟨_, _, _, rfl, rfl, rfl, rfl,
        by show st.nextId ≠ st.nextId + 1; omega,
        by show st.nextId ≠ st.nextId + 1 + 1; omega,
        by show st.nextId + 1 ≠ st.nextId + 1 + 1; omega⟩
  · show st.nextId ≠ st.nextId + 1
    omega
  · show st.nextId ≠ st.nextId + 1 + 1
    omega
  · show st.nextId + 1 ≠ st.nextId + 1 + 1
    omega

/-- C10: `set_clear_color` issues exactly one clear-color call carrying
the stored RGB components with alpha exactly 0, for every input color. -/
theorem set_clear_color_spec (c : ColorUniforms) :
    set_clear_color c =
      [.clearColor c.color.1 c.color.2.1 c.color.2.2 0] := rfl

end VSB
